import Mathlib

/-!
Shallow embedding of the nightlog repository (Rust): the shared data-access
module `nightlog-common/src/lib.rs` and the three lambda handlers
(`nightlog-add`, `nightlog-get`, `nightlog-list`).

The MongoDB collection is modelled as a list of `Log` documents; the Mongo
driver operations used by the code (`insert_one`, `find_one`, `replace_one`,
`find`, `delete_one`) are given their documented semantics over that list.
Fallible driver calls are `Except`-valued. The two sources of ambient
nondeterminism in the code, `ObjectId::new()` and `Utc::now()`, are passed
in as explicit parameters.
-/

set_option autoImplicit false

namespace Nightlog

/-- Model of `bson::oid::ObjectId`: an abstract globally unique value,
represented by a natural number. -/
abbrev ObjectId := Nat

/-- Model of `chrono::DateTime<Utc>`: seconds since the Unix epoch plus a
sub-second component in nanoseconds. `timestamp()` returns `secs`. -/
structure DateTime where
  secs : Int
  subsec_nanos : Nat
deriving DecidableEq

/-- Model of `mongodb::bson::Bson`, restricted to the value kinds this
program puts into documents and filters. -/
inductive Bson where
  | objectId (o : ObjectId)
  | string (s : String)
  | int64 (i : Int)
  | null
  | document (fields : List (String × Bson))

/-- Mongo equality used when matching a filter value against a field value.
Every filter built by this program carries only ObjectId, string or null
values, so subdocument comparison is never exercised. -/
def Bson.scalarEq : Bson → Bson → Bool
  | .objectId a, .objectId b => a == b
  | .string a, .string b => a == b
  | .int64 a, .int64 b => a == b
  | .null, .null => true
  | _, _ => false

-- REQUESTS (lib.rs lines 46..71)

/-- `struct ObservationRequest` from lib.rs. -/
structure ObservationRequest where
  user_id : String
  object_name : String
  object_location : String
  equipment : String
  eyepiece : String
  notes : String
deriving DecidableEq

/-- `struct GetLogRequest` from lib.rs. -/
structure GetLogRequest where
  log_id : ObjectId
  user_id : String
deriving DecidableEq

/-- `struct GetListRequest` from lib.rs. -/
structure GetListRequest where
  user_id : String
deriving DecidableEq

/-- `struct DeleteLogRequest` from lib.rs. -/
structure DeleteLogRequest where
  log_id : ObjectId
  user_id : String
deriving DecidableEq

-- LOG AND COMPONENTS (lib.rs lines 74..134)

/-- `struct Observation` from lib.rs: five free-form text fields. -/
structure Observation where
  object_name : String
  object_location : String
  equipment : String
  eyepiece : String
  notes : String
deriving DecidableEq

/-- `struct Log` from lib.rs: the persisted entity. The `date` field is
serialized with `chrono::serde::ts_seconds`. -/
structure Log where
  _id : Option ObjectId
  user_id : String
  date : DateTime
  observation : Observation
deriving DecidableEq

/-- `Observation::new` from lib.rs. -/
def Observation.new (object_name object_location equipment eyepiece notes : String) :
    Observation :=
  { object_name, object_location, equipment, eyepiece, notes }

/-- `Observation::from_request` from lib.rs: copies the five text fields of
the request. -/
def Observation.from_request (req : ObservationRequest) : Observation :=
  Observation.new req.object_name req.object_location req.equipment req.eyepiece req.notes

/-- `Log::new` from lib.rs. The fresh `ObjectId::new()` and the `Utc::now()`
reading are explicit parameters. -/
def Log.new (freshId : ObjectId) (now : DateTime) (user_id : String)
    (observation : Observation) : Log :=
  { _id := some freshId, user_id, date := now, observation }

/-- `Log::from_observation_request` from lib.rs. -/
def Log.from_observation_request (freshId : ObjectId) (now : DateTime)
    (req : ObservationRequest) : Log :=
  Log.new freshId now req.user_id (Observation.from_request req)

-- ENVIRONMENT (lib.rs lines 16..39)

/-- `struct Config` from lib.rs. -/
structure Config where
  database_url : String
  database_name : String
  database_collection : String
deriving DecidableEq

/-- The process environment: a finite association of variable names to
values. `env_var` models `std::env::var`. -/
abbrev Env := List (String × String)

/-- Model of `std::env::var`: the value of the first binding of the name,
when present. -/
def env_var (env : Env) (name : String) : Option String :=
  (env.find? (fun p => p.1 == name)).map (fun p => p.2)

/-- The initializer closure of the `CONFIG` static (lib.rs lines 23..33).
Each `.expect` aborts the process when the variable is absent; the abort is
modelled as `none`. -/
def loadConfig (env : Env) : Option Config := do
  let database_url ← env_var env "DATABASE_URL"
  let database_name ← env_var env "DATABASE_NAME"
  let database_collection ← env_var env "DATABASE_COLLECTION"
  pure { database_url, database_name, database_collection }

/-- Model of `once_cell::sync::Lazy::force` applied to `CONFIG`: given the
current state of the cell and the environment, return the produced value
(`none` when the initializer aborts) and the new cell state. An already
initialized cell is returned as is, without reading the environment. -/
def forceConfig (cell : Option Config) (env : Env) : Option Config × Option Config :=
  match cell with
  | some c => (some c, some c)
  | none => (loadConfig env, loadConfig env)

-- DOCUMENT SERIALIZATION INTO THE COLLECTION

/-- Bson serialization of the optional `_id` field: serde maps `None` to
`Bson::Null`. -/
def optIdBson : Option ObjectId → Bson
  | some o => .objectId o
  | none => .null

/-- The persisted subdocument of an `Observation` (serde on `Observation`). -/
def Observation.toDoc (o : Observation) : List (String × Bson) :=
  [("object_name", .string o.object_name),
   ("object_location", .string o.object_location),
   ("equipment", .string o.equipment),
   ("eyepiece", .string o.eyepiece),
   ("notes", .string o.notes)]

/-- Top-level field of the persisted document of a `Log`, by key. The `date`
field is serialized by `chrono::serde::ts_seconds` as the integer
`date.timestamp()`, that is `secs`; the sub-second component is dropped. -/
def Log.bsonField (l : Log) : String → Option Bson
  | "_id" => some (optIdBson l._id)
  | "user_id" => some (.string l.user_id)
  | "date" => some (.int64 l.date.secs)
  | "observation" => some (.document (Observation.toDoc l.observation))
  | _ => none

-- FILTERS (the `doc!` expressions of lib.rs)

/-- A Mongo query filter as this program builds them: a conjunction of
field-equality conditions. -/
abbrev Filter := List (String × Bson)

/-- The filter of `log_retrieval` (lib.rs line 171). -/
def retrievalFilter (req : GetLogRequest) : Filter :=
  [("_id", .objectId req.log_id), ("user_id", .string req.user_id)]

/-- The filter of `log_replacement` (lib.rs line 182); `log._id` is an
`Option` and serializes to null when absent. -/
def replacementFilter (log : Log) : Filter :=
  [("_id", optIdBson log._id), ("user_id", .string log.user_id)]

/-- The filter of `log_listing` (lib.rs line 193). -/
def listingFilter (req : GetListRequest) : Filter :=
  [("user_id", .string req.user_id)]

/-- The filter of `log_deletion` (lib.rs line 204). -/
def deletionFilter (req : DeleteLogRequest) : Filter :=
  [("_id", .objectId req.log_id), ("user_id", .string req.user_id)]

/-- A document matches a filter when every listed field equality holds. -/
def filterMatches (f : Filter) (l : Log) : Bool :=
  f.all (fun kv => match l.bsonField kv.1 with
    | some v => Bson.scalarEq v kv.2
    | none => Bson.scalarEq Bson.null kv.2)

-- THE COLLECTION AND THE DRIVER OPERATIONS IT SUPPORTS

/-- The single document collection, in store order. -/
abbrev DB := List Log

/-- Driver-level errors surfaced by the Mongo client. -/
inductive DbError where
  | duplicateKey
deriving DecidableEq

/-- Driver `Collection::insert_one`: appends the document, with a generated
id (the `fresh` parameter) when `_id` is absent; fails on a duplicate `_id`
(the collection keeps `_id` unique). Returns the `inserted_id` Bson value
and the new collection. -/
def insertOne (fresh : ObjectId) (log : Log) (db : DB) :
    Except DbError (Bson × DB) :=
  let storedId := log._id.getD fresh
  if db.any (fun l => l._id == some storedId) then
    .error .duplicateKey
  else
    .ok (Bson.objectId storedId, db ++ [{ log with _id := some storedId }])

/-- Driver `Collection::find_one`: the first document matching the filter. -/
def findOne (f : Filter) (db : DB) : Option Log :=
  db.find? (filterMatches f)

/-- Driver `Collection::find`: all documents matching the filter, in store
order. -/
def findMany (f : Filter) (db : DB) : List Log :=
  db.filter (filterMatches f)

/-- `mongodb::results::DeleteResult`. -/
structure DeleteResult where
  deleted_count : Nat
deriving DecidableEq

/-- `mongodb::results::UpdateResult` (the fields the code reads). -/
structure UpdateResult where
  matched_count : Nat
  modified_count : Nat
deriving DecidableEq

/-- Driver `Collection::delete_one`: removes the first document matching the
filter and reports how many (0 or 1) were deleted. -/
def deleteOne (f : Filter) : DB → DeleteResult × DB
  | [] => (⟨0⟩, [])
  | l :: ls =>
    if filterMatches f l then (⟨1⟩, ls)
    else
      let (r, ls') := deleteOne f ls
      (r, l :: ls')

/-- Equality of two logs at the level of their persisted documents (the
sub-second part of `date` is not stored). -/
def Log.serEq (a b : Log) : Bool :=
  a._id == b._id && a.user_id == b.user_id && a.date.secs == b.date.secs &&
    a.observation == b.observation

/-- Driver `Collection::replace_one`: replaces the first document matching
the filter with the given document; `modified_count` counts a replacement
only when the stored document actually changes. Never inserts. -/
def replaceOne (f : Filter) (r : Log) : DB → UpdateResult × DB
  | [] => (⟨0, 0⟩, [])
  | l :: ls =>
    if filterMatches f l then (⟨1, if Log.serEq l r then 0 else 1⟩, r :: ls)
    else
      let (u, ls') := replaceOne f r ls
      (u, l :: ls')

-- DATABASE FUNCTIONS (lib.rs lines 149..206)

/-- The `match res.inserted_id` block of `log_insertion` (lib.rs lines
157..160): the inserted id when the store returned an ObjectId-typed value,
`none` otherwise. -/
def extractInsertedId : Bson → Option ObjectId
  | .objectId oid => some oid
  | _ => none

/-- `log_insertion` from lib.rs: insert the log, then keep the returned
`inserted_id` only when it is an ObjectId. A driver failure propagates. -/
def log_insertion (log : Log) (fresh : ObjectId) (db : DB) :
    Except DbError (Option ObjectId × DB) := do
  let (res, db') ← insertOne fresh log db
  pure (extractInsertedId res, db')

/-- `log_retrieval` from lib.rs: `find_one` under the id-and-owner filter.
An absent document is `ok none`, not an error. -/
def log_retrieval (db : DB) (log_req : GetLogRequest) :
    Except DbError (Option Log) :=
  .ok (findOne (retrievalFilter log_req) db)

/-- `log_replacement` from lib.rs: `replace_one` of the whole document under
the id-and-owner filter. -/
def log_replacement (log : Log) (db : DB) :
    Except DbError (UpdateResult × DB) :=
  .ok (replaceOne (replacementFilter log) log db)

/-- `log_listing` from lib.rs: `find` under the owner filter; the cursor is
modelled as the finite list of matching documents in store order. -/
def log_listing (db : DB) (list_req : GetListRequest) :
    Except DbError (List Log) :=
  .ok (findMany (listingFilter list_req) db)

/-- `log_deletion` from lib.rs: `delete_one` under the id-and-owner
filter. -/
def log_deletion (db : DB) (log_req : DeleteLogRequest) :
    Except DbError (DeleteResult × DB) :=
  .ok (deleteOne (deletionFilter log_req) db)

-- JSON SERIALIZATION (serde_json, as used by the handlers)

/-- Four-digit hexadecimal rendering of a code point below 0x20, for JSON
control-character escapes. -/
def hex4 (n : Nat) : String :=
  let ds := Nat.toDigits 16 n
  String.mk (List.replicate (4 - ds.length) '0' ++ ds)

/-- JSON escaping of one character, after serde_json: quote, backslash and
control characters are escaped, everything else passes through. -/
def escapeChar (c : Char) : String :=
  if c = '"' then "\\\""
  else if c = '\\' then "\\\\"
  else if c = Char.ofNat 8 then "\\b"
  else if c = Char.ofNat 9 then "\\t"
  else if c = Char.ofNat 10 then "\\n"
  else if c = Char.ofNat 12 then "\\f"
  else if c = Char.ofNat 13 then "\\r"
  else if c.toNat < 32 then "\\u" ++ hex4 c.toNat
  else String.singleton c

/-- JSON escaping of a string body. -/
def escapeJson (s : String) : String :=
  String.join (s.data.map escapeChar)

/-- A JSON string literal. -/
def jstr (s : String) : String :=
  "\"" ++ escapeJson s ++ "\""

/-- The 24-digit lowercase hexadecimal form of an ObjectId. -/
def oidHex (o : ObjectId) : String :=
  let ds := Nat.toDigits 16 o
  String.mk (List.replicate (24 - ds.length) '0' ++ ds)

/-- `serde_json::to_string` of a `bson::oid::ObjectId`: the extended-JSON
object carrying the hexadecimal id. -/
def serializeObjectId (o : ObjectId) : String :=
  "\x7b\"$oid\":" ++ jstr (oidHex o) ++ "\x7d"

/-- `serde_json::to_string` of an `Observation`. -/
def serializeObservation (o : Observation) : String :=
  "\x7b\"object_name\":" ++ jstr o.object_name ++
    ",\"object_location\":" ++ jstr o.object_location ++
    ",\"equipment\":" ++ jstr o.equipment ++
    ",\"eyepiece\":" ++ jstr o.eyepiece ++
    ",\"notes\":" ++ jstr o.notes ++ "\x7d"

/-- `serde_json::to_string` of a `Log`: the `date` field goes through
`chrono::serde::ts_seconds` and is written as integer seconds. -/
def serializeLog (l : Log) : String :=
  "\x7b\"_id\":" ++
    (match l._id with
     | some o => serializeObjectId o
     | none => "null") ++
    ",\"user_id\":" ++ jstr l.user_id ++
    ",\"date\":" ++ toString l.date.secs ++
    ",\"observation\":" ++ serializeObservation l.observation ++ "\x7d"

/-- `serde_json::to_string` of a `Vec<Log>`. -/
def serializeLogList (ls : List Log) : String :=
  "[" ++ String.intercalate "," (ls.map serializeLog) ++ "]"

-- HANDLERS

/-- The `{statusCode, body}` response envelope each handler returns. -/
structure Response where
  statusCode : Int
  body : String
deriving DecidableEq

/-- Rendering of a driver error when the `?` operator converts it into a
lambda invocation error. -/
def dbErrorMessage : DbError → String
  | .duplicateKey => "duplicate key error"

/-- The response logic of the add handler after `log_insertion` returns
(nightlog-add main.rs lines 25..35): a missing id becomes an invocation
error, an id is serialized into a 200 envelope. -/
def addResponse (res : Option ObjectId) : Except String Response :=
  match res with
  | none => .error "no id returned from insert operation"
  | some id => .ok { statusCode := 200, body := serializeObjectId id }

/-- `function_handler` of nightlog-add main.rs, after a successful
connection: build the log from the payload, insert it, and wrap the new id.
Driver failures propagate through the `?` operator. -/
def NightlogAdd.function_handler (freshId : ObjectId) (now : DateTime)
    (payload : ObservationRequest) (db : DB) : Except String (Response × DB) :=
  let log := Log.from_observation_request freshId now payload
  match log_insertion log freshId db with
  | .error e => .error (dbErrorMessage e)
  | .ok (res, db') => (addResponse res).map (fun r => (r, db'))

/-- `function_handler` of nightlog-get main.rs, after a successful
connection: retrieve under the id-and-owner filter; a missing document
becomes an invocation error (the message is the one in the source), a found
log is serialized into a 200 envelope. -/
def NightlogGet.function_handler (db : DB) (payload : GetLogRequest) :
    Except String Response :=
  match log_retrieval db payload with
  | .error e => .error (dbErrorMessage e)
  | .ok none => .error "no id returned from insert operation"
  | .ok (some log) => .ok { statusCode := 200, body := serializeLog log }

/-- `function_handler` of nightlog-list main.rs, after a successful
connection: list the logs of the requesting owner and serialize the
collected vector into a
200 envelope. A cursor failure while collecting becomes an invocation
error. -/
def NightlogList.function_handler (db : DB) (payload : GetListRequest) :
    Except String Response :=
  match log_listing db payload with
  | .error e => .error (dbErrorMessage e)
  | .ok logs => .ok { statusCode := 200, body := serializeLogList logs }

-- SAMPLE VALUES FOR WITNESS INSTANTIATIONS

/-- A concrete observation used to instantiate theorems with hypotheses. -/
def sampleObservation : Observation :=
  { object_name := "M31", object_location := "Andromeda",
    equipment := "Dobson 254/1250", eyepiece := "25mm", notes := "clear sky" }

/-- A concrete stored log owned by the user "alice". -/
def sampleLog : Log :=
  { _id := some 1, user_id := "alice", date := ⟨100, 0⟩,
    observation := sampleObservation }

-- HELPER LEMMAS

/-- An id-and-owner filter accepts a document exactly when both the id and
the owner match. -/
theorem filterMatches_id_owner (oid : ObjectId) (uid : String) (l : Log) :
    filterMatches [("_id", Bson.objectId oid), ("user_id", Bson.string uid)] l = true ↔
      (l._id = some oid ∧ l.user_id = uid) := by
  cases hid : l._id <;>
    simp [filterMatches, Log.bsonField, optIdBson, Bson.scalarEq, hid]

/-- An owner-only filter accepts a document exactly when the owner
matches. -/
theorem filterMatches_owner_only (uid : String) (l : Log) :
    filterMatches [("user_id", Bson.string uid)] l = true ↔ l.user_id = uid := by
  simp [filterMatches, Log.bsonField, Bson.scalarEq]

/-- When no stored document carries both the id and the owner, the
id-and-owner filter rejects every stored document. -/
theorem filterMatches_false_of_not (oid : ObjectId) (uid : String) (db : DB)
    (h : ∀ l ∈ db, ¬(l._id = some oid ∧ l.user_id = uid)) :
    ∀ l ∈ db,
      filterMatches [("_id", Bson.objectId oid), ("user_id", Bson.string uid)] l = false := by
  intro l hl
  by_cases hb : filterMatches [("_id", Bson.objectId oid), ("user_id", Bson.string uid)] l = true
  · exact absurd ((filterMatches_id_owner oid uid l).mp hb) (h l hl)
  · exact (Bool.not_eq_true _).mp hb

/-- `find_one` under a filter that rejects every stored document is
`none`. -/
theorem findOne_of_no_match (f : Filter) (db : DB)
    (h : ∀ l ∈ db, filterMatches f l = false) :
    findOne f db = none := by
  simp only [findOne, List.find?_eq_none]
  intro x hx
  simp [h x hx]

/-- `delete_one` under a filter that rejects every stored document deletes
nothing and leaves the collection unchanged. -/
theorem deleteOne_of_no_match (f : Filter) (db : DB)
    (h : ∀ l ∈ db, filterMatches f l = false) :
    deleteOne f db = (⟨0⟩, db) := by
  induction db with
  | nil => rfl
  | cons l ls ih =>
    have h0 := h l (List.mem_cons_self l ls)
    have ih' := ih (fun x hx => h x (List.mem_cons_of_mem l hx))
    simp [deleteOne, h0, ih']

/-- `replace_one` under a filter that rejects every stored document matches
and modifies nothing and leaves the collection unchanged. -/
theorem replaceOne_of_no_match (f : Filter) (r : Log) (db : DB)
    (h : ∀ l ∈ db, filterMatches f l = false) :
    replaceOne f r db = (⟨0, 0⟩, db) := by
  induction db with
  | nil => rfl
  | cons l ls ih =>
    have h0 := h l (List.mem_cons_self l ls)
    have ih' := ih (fun x hx => h x (List.mem_cons_of_mem l hx))
    simp [replaceOne, h0, ih']

/-- `find?` skips a prefix in which nothing satisfies the predicate. -/
theorem find?_append_of_none {α : Type} (p : α → Bool) (l1 l2 : List α)
    (h : l1.find? p = none) : (l1 ++ l2).find? p = l2.find? p := by
  induction l1 with
  | nil => simp
  | cons x xs ih =>
    cases hp : p x with
    | true => simp [List.find?_cons_of_pos _ hp] at h
    | false =>
      rw [List.find?_cons_of_neg _ (by simp [hp])] at h
      rw [List.cons_append, List.find?_cons_of_neg _ (by simp [hp])]
      exact ih h

-- CLAIM THEOREMS

/-- C1: the retrieval, replacement and deletion filters each pair the
entity identifier with the owner identifier (both must match), so a request
whose id-and-owner pair matches no stored document -- in particular a
correct identifier under a different owner, exactly as a nonexistent
identifier -- retrieves nothing, deletes nothing and replaces nothing,
leaving the collection unchanged. -/
theorem owner_scoping_matches_zero (db : DB) (oid : ObjectId) (uid : String)
    (h : ∀ l ∈ db, ¬(l._id = some oid ∧ l.user_id = uid)) :
    (∀ l, filterMatches (retrievalFilter ⟨oid, uid⟩) l = true ↔
        (l._id = some oid ∧ l.user_id = uid)) ∧
    (∀ l, filterMatches (deletionFilter ⟨oid, uid⟩) l = true ↔
        (l._id = some oid ∧ l.user_id = uid)) ∧
    log_retrieval db ⟨oid, uid⟩ = .ok none ∧
    log_deletion db ⟨oid, uid⟩ = .ok (⟨0⟩, db) ∧
    (∀ rlog : Log, rlog._id = some oid → rlog.user_id = uid →
      (∀ l, filterMatches (replacementFilter rlog) l = true ↔
          (l._id = some oid ∧ l.user_id = uid)) ∧
      log_replacement rlog db = .ok (⟨0, 0⟩, db)) := by
  have hfalse := filterMatches_false_of_not oid uid db h
  refine ⟨fun l => filterMatches_id_owner oid uid l,
          fun l => filterMatches_id_owner oid uid l,
          ?_, ?_, ?_⟩
  · simp only [log_retrieval, retrievalFilter]
    rw [findOne_of_no_match _ _ hfalse]
  · simp only [log_deletion, deletionFilter]
    rw [deleteOne_of_no_match _ _ hfalse]
  · intro rlog hid huid
    constructor
    · intro l
      simp only [replacementFilter, hid, huid, optIdBson]
      exact filterMatches_id_owner oid uid l
    · simp only [log_replacement, replacementFilter, hid, huid, optIdBson]
      rw [replaceOne_of_no_match _ _ _ hfalse]

/-- C1 witness: a collection holding only a log of "alice"; a request for
its identifier by "bob" retrieves nothing and deletes nothing. -/
theorem owner_scoping_matches_zero_witness :
    log_retrieval [sampleLog] ⟨1, "bob"⟩ = .ok none ∧
    log_deletion [sampleLog] ⟨1, "bob"⟩ = .ok (⟨0⟩, [sampleLog]) :=
  ⟨(owner_scoping_matches_zero [sampleLog] 1 "bob" (by decide)).2.2.1,
   (owner_scoping_matches_zero [sampleLog] 1 "bob" (by decide)).2.2.2.1⟩

/-- C2: the id produced by an insert is kept only when the store returned
an ObjectId-typed value; any other value kind makes the add handler return
an invocation error, and an ObjectId is returned as the new identifier in a
200 envelope. -/
theorem insert_id_type_checked (b : Bson) :
    ((∀ o : ObjectId, b ≠ Bson.objectId o) →
      addResponse (extractInsertedId b) =
        .error "no id returned from insert operation") ∧
    (∀ o : ObjectId, b = Bson.objectId o →
      addResponse (extractInsertedId b) =
        .ok { statusCode := 200, body := serializeObjectId o }) := by
  constructor
  · intro hne
    cases b with
    | objectId o => exact absurd rfl (hne o)
    | string s => rfl
    | int64 i => rfl
    | null => rfl
    | document fields => rfl
  · intro o ho
    subst ho
    rfl

/-- C2 witness: a null inserted id is rejected as an error; an ObjectId
inserted id is returned serialized. -/
theorem insert_id_type_checked_witness :
    addResponse (extractInsertedId Bson.null) =
      .error "no id returned from insert operation" ∧
    addResponse (extractInsertedId (Bson.objectId 3)) =
      .ok { statusCode := 200, body := serializeObjectId 3 } :=
  ⟨(insert_id_type_checked Bson.null).1 (fun _ h => Bson.noConfusion h),
   (insert_id_type_checked (Bson.objectId 3)).2 3 rfl⟩

/-- C3: when the id-and-owner filter of a get request matches no stored
document, the get handler returns an invocation error, not a success
envelope. -/
theorem get_not_found_fails (db : DB) (req : GetLogRequest)
    (h : ∀ l ∈ db, ¬(l._id = some req.log_id ∧ l.user_id = req.user_id)) :
    NightlogGet.function_handler db req =
      .error "no id returned from insert operation" := by
  have hnone : findOne (retrievalFilter req) db = none :=
    findOne_of_no_match _ _ (filterMatches_false_of_not req.log_id req.user_id db h)
  simp [NightlogGet.function_handler, log_retrieval, hnone]

/-- C3 witness: a get request against the empty collection fails. -/
theorem get_not_found_fails_witness :
    NightlogGet.function_handler [] ⟨1, "alice"⟩ =
      .error "no id returned from insert operation" :=
  get_not_found_fails [] ⟨1, "alice"⟩ (by simp)

/-- C4: inserting a log and then retrieving with its identifier and its
owner identifier succeeds and returns a log whose five observation fields
equal the inserted ones; the insert also returns that identifier. -/
theorem insert_retrieve_roundtrip (db db' : DB) (log : Log) (fresh oid : ObjectId)
    (ret : Option ObjectId)
    (hid : log._id = some oid)
    (hins : log_insertion log fresh db = .ok (ret, db')) :
    ret = some oid ∧
    ∃ found : Log,
      log_retrieval db' ⟨oid, log.user_id⟩ = .ok (some found) ∧
      found.observation.object_name = log.observation.object_name ∧
      found.observation.object_location = log.observation.object_location ∧
      found.observation.equipment = log.observation.equipment ∧
      found.observation.eyepiece = log.observation.eyepiece ∧
      found.observation.notes = log.observation.notes := by
  have hstore : { log with _id := some oid } = log := by
    cases log with
    | mk a b c d =>
      simp only at hid
      subst hid
      rfl
  by_cases hany : db.any (fun l => l._id == some oid) = true
  · simp [log_insertion, insertOne, hid, hany, Except.bind] at hins
  · have hins' : insertOne fresh log db = .ok (Bson.objectId oid, db ++ [log]) := by
      simp only [insertOne, hid, Option.getD_some, hany, Bool.false_eq_true, if_false, hstore]
    rw [log_insertion] at hins
    rw [hins'] at hins
    have hpair : ((some oid : Option ObjectId), db ++ [log]) = (ret, db') := by
      simpa [Bind.bind, Except.bind, extractInsertedId, pure, Except.pure] using hins
    have hret : some oid = ret := congrArg Prod.fst hpair
    have hdb2 : db ++ [log] = db' := congrArg Prod.snd hpair
    subst hdb2
    refine ⟨hret.symm, log, ?_, rfl, rfl, rfl, rfl, rfl⟩
    have hnone : db.find? (filterMatches (retrievalFilter ⟨oid, log.user_id⟩)) = none := by
      rw [List.find?_eq_none]
      intro x hx hc
      have hx' := (filterMatches_id_owner oid log.user_id x).mp
        (by simpa [retrievalFilter] using hc)
      have hb : (x._id == some oid) = true := by simp [hx'.1]
      exact hany (List.any_eq_true.mpr ⟨x, hx, hb⟩)
    rw [log_retrieval, findOne, find?_append_of_none _ _ _ hnone]
    have hmatch : filterMatches (retrievalFilter ⟨oid, log.user_id⟩) log = true :=
      (filterMatches_id_owner oid log.user_id log).mpr ⟨hid, rfl⟩
    simp [List.find?_cons_of_pos _ hmatch]

/-- C4 witness: inserting the sample log into the empty collection and
retrieving it by its id and owner returns its observation fields. -/
theorem insert_retrieve_roundtrip_witness :
    ∃ found : Log,
      log_retrieval [sampleLog] ⟨1, "alice"⟩ = .ok (some found) ∧
      found.observation.object_name = sampleLog.observation.object_name ∧
      found.observation.object_location = sampleLog.observation.object_location ∧
      found.observation.equipment = sampleLog.observation.equipment ∧
      found.observation.eyepiece = sampleLog.observation.eyepiece ∧
      found.observation.notes = sampleLog.observation.notes :=
  (insert_retrieve_roundtrip [] [sampleLog] sampleLog 7 1 (some 1) rfl rfl).2

/-- C5: a log built from an observation request carries the freshly
generated identifier (so the identifier is present), the time captured at
creation, the owner identifier verbatim from the request, and the
observation constructed from the request. -/
theorem from_observation_request_fields (freshId : ObjectId) (now : DateTime)
    (req : ObservationRequest) :
    (Log.from_observation_request freshId now req)._id = some freshId ∧
    (Log.from_observation_request freshId now req)._id.isSome = true ∧
    (Log.from_observation_request freshId now req).date = now ∧
    (Log.from_observation_request freshId now req).user_id = req.user_id ∧
    (Log.from_observation_request freshId now req).observation =
      Observation.from_request req :=
  ⟨rfl, rfl, rfl, rfl, rfl⟩

/-- C6: an observation built from a request copies the five text fields
verbatim, for every request, with no transformation of any kind. -/
theorem observation_from_request_verbatim (req : ObservationRequest) :
    (Observation.from_request req).object_name = req.object_name ∧
    (Observation.from_request req).object_location = req.object_location ∧
    (Observation.from_request req).equipment = req.equipment ∧
    (Observation.from_request req).eyepiece = req.eyepiece ∧
    (Observation.from_request req).notes = req.notes :=
  ⟨rfl, rfl, rfl, rfl, rfl⟩

/-- C7: the configuration initializer aborts exactly when one of the three
named environment values is missing; a first force reads the environment
once, and once the cell is initialized every later force returns the
memoized value unchanged, whatever the environment then holds. -/
theorem config_load_once_and_fatal :
    (∀ env : Env,
      loadConfig env = none ↔
        (env_var env "DATABASE_URL" = none ∨
         env_var env "DATABASE_NAME" = none ∨
         env_var env "DATABASE_COLLECTION" = none)) ∧
    (∀ env : Env, forceConfig none env = (loadConfig env, loadConfig env)) ∧
    (∀ (c : Config) (env : Env), forceConfig (some c) env = (some c, some c)) := by
  refine ⟨fun env => ?_, fun env => rfl, fun c env => rfl⟩
  cases h1 : env_var env "DATABASE_URL" <;>
    cases h2 : env_var env "DATABASE_NAME" <;>
      cases h3 : env_var env "DATABASE_COLLECTION" <;>
        simp [loadConfig, h1, h2, h3]

/-- C8: a retrieval whose id-and-owner filter matches nothing returns the
explicit empty result, which is a success value distinct from every error
value. -/
theorem retrieval_not_found_distinct (db : DB) (req : GetLogRequest)
    (h : ∀ l ∈ db, ¬(l._id = some req.log_id ∧ l.user_id = req.user_id)) :
    log_retrieval db req = .ok none ∧
    ∀ e : DbError, (Except.ok none : Except DbError (Option Log)) ≠ .error e := by
  have hnone : findOne (retrievalFilter req) db = none :=
    findOne_of_no_match _ _ (filterMatches_false_of_not req.log_id req.user_id db h)
  exact ⟨by simp [log_retrieval, hnone], fun e h => Except.noConfusion h⟩

/-- C8 witness: retrieving the sample log with the wrong owner yields the
empty result, not an error. -/
theorem retrieval_not_found_distinct_witness :
    log_retrieval [sampleLog] ⟨1, "bob"⟩ = .ok none :=
  (retrieval_not_found_distinct [sampleLog] ⟨1, "bob"⟩ (by decide)).1

/-- C9: the date field of the persisted document is the integer seconds
since the epoch of the captured creation time; two times with equal seconds
persist identically, so the sub-second component is not stored. -/
theorem date_stored_as_integer_seconds (l : Log) (d d' : DateTime)
    (h : d.secs = d'.secs) :
    Log.bsonField l "date" = some (Bson.int64 l.date.secs) ∧
    Log.bsonField { l with date := d } "date" =
      Log.bsonField { l with date := d' } "date" := by
  refine ⟨rfl, ?_⟩
  show some (Bson.int64 d.secs) = some (Bson.int64 d'.secs)
  rw [h]

/-- C9 witness: the sample log persists its date as the integer 100, and
two dates differing only below the second persist identically. -/
theorem date_stored_as_integer_seconds_witness :
    Log.bsonField sampleLog "date" = some (Bson.int64 100) ∧
    Log.bsonField { sampleLog with date := ⟨7, 1⟩ } "date" =
      Log.bsonField { sampleLog with date := ⟨7, 999⟩ } "date" :=
  date_stored_as_integer_seconds sampleLog ⟨7, 1⟩ ⟨7, 999⟩ rfl

/-- C10: a list request by an owner with no matching logs succeeds with
statusCode 200 and the JSON encoding of the empty sequence as body; it is
neither a not-found nor an error. -/
theorem list_empty_success (db : DB) (req : GetListRequest)
    (h : ∀ l ∈ db, l.user_id ≠ req.user_id) :
    NightlogList.function_handler db req =
      .ok { statusCode := 200, body := "[]" } := by
  have hnil : findMany (listingFilter req) db = [] := by
    rw [findMany, List.filter_eq_nil_iff]
    intro a ha
    simp [listingFilter, filterMatches_owner_only, h a ha]
  simp only [NightlogList.function_handler, log_listing, hnil]
  rfl

/-- C10 witness: listing for "bob" over a collection holding only a log of
"alice" returns the 200 envelope with body "[]". -/
theorem list_empty_success_witness :
    NightlogList.function_handler [sampleLog] ⟨"bob"⟩ =
      .ok { statusCode := 200, body := "[]" } :=
  list_empty_success [sampleLog] ⟨"bob"⟩ (by decide)

end Nightlog
